import Mathlib

/-!
Shallow embedding of the ObserveAI log-observability agent's detection and
incident-synthesis pipeline, together with theorems checking the
specification's claims against it.

Conventions of the embedding:
* Python floats become exact rationals (`ℚ`); the numeric claims are about
  the algebra of the code, not about floating-point rounding.
* The source stores a standard deviation `std` and immediately squares it
  back (`old_var = std ** 2`) in the only place it is consumed by the
  baseline recurrence, so the baseline state here stores `std_sq = std ^ 2`
  exactly; statements about the reported standard deviation use
  `Real.sqrt std_sq`.
* Detectors that consume `statistics.stdev(...)` (an irrational real in
  general) receive that standard deviation as an explicit argument; the
  theorems constrain it by `σ ^ 2 = sampleVariance …` and `0 ≤ σ`.
* Wall-clock timestamps become abstract numeric instants (seconds, `ℚ`) or
  `(hour, weekday)` pairs, matching exactly the fields the code reads.
-/

namespace ObserveAI

/-- Severity labels, the closed set used throughout the source
(`"low" | "medium" | "high" | "critical"`). -/
inductive Severity where
  | low
  | medium
  | high
  | critical
deriving DecidableEq

/-- The `severity_order` mapping of `log_monitor._create_incident`
(`{"low": 1, "medium": 2, "high": 3, "critical": 4}`). -/
def Severity.rank : Severity → ℕ
  | .low => 1
  | .medium => 2
  | .high => 3
  | .critical => 4

/-- A value stored in an anomaly's free-form `metrics` dict.  The source
stores numbers and strings (nested lists/dicts of evidence are dropped from
the embedding; no claim refers to them). -/
inductive MetricValue where
  | num (q : ℚ)
  | str (s : String)
deriving DecidableEq

/-- `models/incident.py` `Anomaly`: kind, severity, score and evidence.
`description` and `detected_at` are not modelled (free prose built with
float formatting, and a wall-clock default). -/
structure Anomaly where
  anomaly_type : String
  severity : Severity
  score : ℚ
  metrics : List (String × MetricValue) := []
deriving DecidableEq

/-- A log record as consumed by the pipeline: exactly the fields the code
reads from the Elasticsearch `_source` dicts.  `timestamp` is the parsed
`@timestamp` in seconds (`none` when the field is absent or unparseable),
`service`/`labels_app`/`endpoint` model `log.get("service")`,
`log.get("kubernetes", {}).get("labels", {}).get("app")` and
`log.get("endpoint")`. -/
structure Log where
  timestamp : Option ℚ := none
  level : String := ""
  message : String := ""
  service : Option String := none
  labels_app : Option String := none
  endpoint : Option String := none
deriving DecidableEq

/-- Substring containment on character lists: the needle is a prefix of
some suffix. -/
def strContainsAux (needle : List Char) : List Char → Bool
  | [] => needle.isEmpty
  | c :: rest => needle.isPrefixOf (c :: rest) || strContainsAux needle rest

/-- Substring containment, Python's `needle in hay`. -/
def strContains (hay needle : String) : Bool :=
  strContainsAux needle.data hay.data

/-- Python's `str.lower()` (ASCII case folding suffices for the literals
the code compares against). -/
def lowerStr (s : String) : String := ⟨s.data.map Char.toLower⟩

/-- Python's `s[:n]` (truncation by code point). -/
def takeStr (s : String) (n : ℕ) : String := ⟨s.data.take n⟩

/-- First-occurrence deduplication (elements already `seen` are
dropped). -/
def dedupFirstAux {α : Type _} [DecidableEq α] (seen : List α) : List α → List α
  | [] => []
  | x :: xs => if x ∈ seen then dedupFirstAux seen xs else x :: dedupFirstAux (x :: seen) xs

/-- First-occurrence deduplication: the iteration order of a Python dict
keyed by first insertion, and the size of a Python `set`. -/
def dedupFirst {α : Type _} [DecidableEq α] : List α → List α :=
  dedupFirstAux []

/-- The error test used by `_check_logs`, `_create_incident` and the
detectors: `"ERROR" in log.get("level", "") or "error" in
log.get("message", "").lower()`. -/
def isErrorLog (log : Log) : Bool :=
  strContains log.level "ERROR" || strContains (lowerStr log.message) "error"

/-- `anomaly_detector._calculate_severity`: score-to-label mapping
(`≥ 0.8` critical, `≥ 0.6` high, `≥ 0.4` medium, otherwise low). -/
def calculateSeverity (score : ℚ) : Severity :=
  if 0.8 ≤ score then .critical
  else if 0.6 ≤ score then .high
  else if 0.4 ≤ score then .medium
  else .low

/-- `statistics.mean`. -/
def sampleMean (xs : List ℚ) : ℚ := xs.sum / xs.length

/-- The square of `statistics.stdev` (sample variance, Bessel-corrected);
only used on lists of length at least 2. -/
def sampleVariance (xs : List ℚ) : ℚ :=
  (xs.map (fun x => (x - sampleMean xs) ^ 2)).sum / (xs.length - 1)

/-- Population variance, the reference quantity named by the spec's
Welford-correctness property (the code itself never computes it). -/
def popVariance (xs : List ℚ) : ℚ :=
  (xs.map (fun x => (x - sampleMean xs) ^ 2)).sum / xs.length

/-- Per-metric online statistics of `adaptive_baseline.py`
(`{'mean': …, 'std': …, 'samples': …}`).  `std_sq` is the square of the
stored `std`: the recurrence reads the stored value back only as
`old_var = std ** 2`, so squaring loses nothing. -/
structure MetricStats where
  mean : ℚ
  std_sq : ℚ
  samples : ℕ
deriving DecidableEq

/-- One baseline bucket: error-rate and log-volume statistics. -/
structure BaselineStats where
  error_rate : MetricStats
  log_volume : MetricStats
deriving DecidableEq

/-- The two timestamp fields the baseline reads (`timestamp.hour`,
`timestamp.weekday()`). -/
structure Time where
  hour : Fin 24
  weekday : Fin 7
deriving DecidableEq

/-- `AdaptiveBaseline` state: per-hour, per-weekday and overall buckets.
The bounded ring buffers of raw samples and the JSON persistence are not
modelled (no claim refers to them). -/
structure AdaptiveBaseline where
  hourly_baselines : Fin 24 → BaselineStats
  daily_baselines : Fin 7 → BaselineStats
  overall_baseline : BaselineStats

/-- One metric channel of `_update_baseline_stats`.  The source computes
`new_mean = old_mean + (x - old_mean) / n`, then for `n > 1`
`new_var = ((n - 1) * old_var + (x - old_mean) * (x - new_mean)) / n` with
`old_var = std ** 2`, takes `new_std = new_var ** 0.5` (and `new_std = 0`
for the first sample; the volume channel's literal `1` for the first
sample coincides with its floor), and stores `max(new_std, floor)`.  On
squares: the stored `std ^ 2` is `max new_var (floor ^ 2)`, since
`new_var ≥ 0` along every execution. -/
def updateMetricStats (m : MetricStats) (x : ℚ) (floor_val : ℚ) : MetricStats :=
  let n : ℕ := m.samples + 1
  let new_mean : ℚ := m.mean + (x - m.mean) / n
  let new_var : ℚ :=
    if 1 < n then ((n - 1 : ℚ) * m.std_sq + (x - m.mean) * (x - new_mean)) / n
    else 0
  { mean := new_mean, std_sq := max new_var (floor_val ^ 2), samples := n }

/-- `_update_baseline_stats` on one bucket: error-rate floor `0.1`,
log-volume floor `1`. -/
def updateBaselineStats (b : BaselineStats) (error_rate log_volume : ℚ) : BaselineStats :=
  { error_rate := updateMetricStats b.error_rate error_rate 0.1
    log_volume := updateMetricStats b.log_volume log_volume 1 }

/-- `AdaptiveBaseline.update`: route the sample to the bucket of its hour,
the bucket of its weekday, and the overall bucket. -/
def AdaptiveBaseline.update (b : AdaptiveBaseline) (error_rate : ℚ) (log_volume : ℚ)
    (t : Time) : AdaptiveBaseline :=
  { hourly_baselines := fun h =>
      if h = t.hour then updateBaselineStats (b.hourly_baselines h) error_rate log_volume
      else b.hourly_baselines h
    daily_baselines := fun d =>
      if d = t.weekday then updateBaselineStats (b.daily_baselines d) error_rate log_volume
      else b.daily_baselines d
    overall_baseline := updateBaselineStats b.overall_baseline error_rate log_volume }

/-- The baseline state built by `AdaptiveBaseline.__init__` when no
persisted file exists: hourly and weekday buckets all zero, overall bucket
`error_rate = {mean 0, std 1, samples 0}`,
`log_volume = {mean 100, std 50, samples 0}`. -/
def initialBaseline : AdaptiveBaseline :=
  { hourly_baselines := fun _ =>
      { error_rate := { mean := 0, std_sq := 0, samples := 0 }
        log_volume := { mean := 0, std_sq := 0, samples := 0 } }
    daily_baselines := fun _ =>
      { error_rate := { mean := 0, std_sq := 0, samples := 0 }
        log_volume := { mean := 0, std_sq := 0, samples := 0 } }
    overall_baseline :=
      { error_rate := { mean := 0, std_sq := 1, samples := 0 }
        log_volume := { mean := 100, std_sq := 2500, samples := 0 } } }

/-- One measured cycle fed to the baseline. -/
structure BaselineSample where
  error_rate : ℚ
  log_volume : ℚ
  t : Time
deriving DecidableEq

/-- Feed a sequence of samples through `AdaptiveBaseline.update`. -/
def feedBaseline (b : AdaptiveBaseline) (samples : List BaselineSample) : AdaptiveBaseline :=
  samples.foldl (fun acc s => acc.update s.error_rate s.log_volume s.t) b

/-- Feed one metric channel of a single bucket. -/
def feedMetricStats (m : MetricStats) (xs : List ℚ) (floor_val : ℚ) : MetricStats :=
  xs.foldl (fun acc x => updateMetricStats acc x floor_val) m

/-- `get_expected_baseline`: the hourly bucket when it has at least 10
error-rate samples, else the weekday bucket under the same test, else the
overall bucket. -/
def get_expected_baseline (b : AdaptiveBaseline) (t : Time) : BaselineStats :=
  if 10 ≤ ((b.hourly_baselines t.hour).error_rate.samples) then b.hourly_baselines t.hour
  else if 10 ≤ ((b.daily_baselines t.weekday).error_rate.samples) then b.daily_baselines t.weekday
  else b.overall_baseline

/-- The z-score test of `is_anomalous` for one metric: the source computes
`z = (x - mean) / std if std > 0 else 0` with `std = √std_sq` and tests
`abs(z) > sensitivity`.  On squares (exact, see `zExceeds_iff`): for
`std_sq > 0` and `0 ≤ s` this is `s ^ 2 * std_sq < (x - mean) ^ 2`; a
negative sensitivity is below every `|z|`; `std ≤ 0` forces `z = 0`. -/
def zExceeds (x mean std_sq s : ℚ) : Bool :=
  if 0 < std_sq then (if s < 0 then true else decide (s ^ 2 * std_sq < (x - mean) ^ 2))
  else decide (s < 0)

/-- The evidence dict returned by `is_anomalous` (scalar entries; the
per-metric z-scores are derivable from the recorded fields). -/
structure BaselineDetails where
  error_current : ℚ
  error_expected : ℚ
  error_std_sq : ℚ
  error_is_anomalous : Bool
  volume_current : ℚ
  volume_expected : ℚ
  volume_std_sq : ℚ
  volume_is_anomalous : Bool
  baseline_samples : ℕ
  sensitivity : ℚ
deriving DecidableEq

/-- `AdaptiveBaseline.is_anomalous`: select a baseline, return
`(False, None)` below 5 samples, otherwise flag when either z-score
exceeds the sensitivity, returning the evidence dict. -/
def is_anomalous (b : AdaptiveBaseline) (error_rate : ℚ) (log_volume : ℚ) (t : Time)
    (sensitivity : ℚ) : Bool × Option BaselineDetails :=
  let baseline := get_expected_baseline b t
  if baseline.error_rate.samples < 5 then (false, none)
  else
    let is_error_anomalous :=
      zExceeds error_rate baseline.error_rate.mean baseline.error_rate.std_sq sensitivity
    let is_volume_anomalous :=
      zExceeds log_volume baseline.log_volume.mean baseline.log_volume.std_sq sensitivity
    if is_error_anomalous || is_volume_anomalous then
      (true, some
        { error_current := error_rate
          error_expected := baseline.error_rate.mean
          error_std_sq := baseline.error_rate.std_sq
          error_is_anomalous := is_error_anomalous
          volume_current := log_volume
          volume_expected := baseline.log_volume.mean
          volume_std_sq := baseline.log_volume.std_sq
          volume_is_anomalous := is_volume_anomalous
          baseline_samples := baseline.error_rate.samples
          sensitivity := sensitivity })
    else (false, none)

/-- `anomaly_detector.detect_error_spike`.  The mutable
`history["error_counts"]` (appended with the current count, then pruned to
the last hour) is passed in as `recent_counts` (the pruned previous
counts, `history[:-1]`) and `current_errors` (the appended entry,
`history[-1]`); `std_errors` is `statistics.stdev(recent_counts)`, passed
explicitly because the code computes it as a float square root. -/
def detectErrorSpike (recent_counts : List ℚ) (current_errors : ℚ)
    (std_errors : ℚ) : Option Anomaly :=
  if recent_counts.length + 1 < 5 then none
  else
    let avg_errors := sampleMean recent_counts
    let threshold := avg_errors + 2 * std_errors
    if threshold < current_errors ∧ 10 < current_errors then
      let score := min 1 ((current_errors - threshold) / (threshold + 1))
      some { anomaly_type := "error_spike"
             severity := calculateSeverity score
             score := score
             metrics := [("current_errors", .num current_errors),
                         ("baseline_avg", .num avg_errors),
                         ("threshold", .num threshold)] }
    else none

/-- `timeseries_analyzer.detect_oscillation` on the values of its window
(default `min_points = 6`); `stdev` is `statistics.stdev(values)`, passed
explicitly (see `detectErrorSpike`). -/
def detectOscillation (values : List ℚ) (stdev : ℚ) : Option Anomaly :=
  if values.length < 6 then none
  else if values.length < 2 then none
  else
    let mean := sampleMean values
    if 0 < mean then
      let cv := stdev / mean
      if 0.5 < cv ∧ 5 < stdev then
        some { anomaly_type := "oscillation"
               severity := .medium
               score := min 1 cv
               metrics := [("coefficient_of_variation", .num cv),
                           ("mean", .num mean),
                           ("stdev", .num stdev)] }
      else none
    else none

/-- The HTTP verbs recognized by `correlate_error_with_endpoint`. -/
def httpVerbs : List String := ["GET", "POST", "PUT", "DELETE", "PATCH"]

/-- The token scan of `correlate_error_with_endpoint`: the token after the
first verb that has a successor (a verb in final position matches the
source's loop, which then ends without an assignment). -/
def findVerbPath : List String → Option String
  | p :: q :: rest => if p ∈ httpVerbs then some q else findVerbPath (q :: rest)
  | _ => none

/-- Split a character list at spaces (accumulator holds the current token
reversed). -/
def splitSpacesAux : List Char → List Char → List String
  | [], acc => [⟨acc.reverse⟩]
  | c :: rest, acc =>
    if c = ' ' then (⟨acc.reverse⟩ : String) :: splitSpacesAux rest []
    else splitSpacesAux rest (c :: acc)

/-- Python `str.split()` restricted to spaces: split and drop empty
tokens. -/
def splitTokens (s : String) : List String :=
  (splitSpacesAux s.data []).filter (· ≠ "")

/-- Endpoint attribution of `correlate_error_with_endpoint`: parse
`VERB path` out of the message when the message mentions `GET`/`POST`,
otherwise (also when the parsed path is the empty string, which is falsy
in Python) fall back to the log's `endpoint` field or `"unknown"`. -/
def extractEndpoint (log : Log) : String :=
  let fromMsg : Option String :=
    if strContains log.message "GET" || strContains log.message "POST" then
      findVerbPath (splitTokens log.message)
    else none
  match fromMsg with
  | some e => if e = "" then log.endpoint.getD "unknown" else e
  | none => log.endpoint.getD "unknown"

/-- One row of the `problematic_endpoints` list. -/
structure EndpointStat where
  endpoint : String
  error_count : ℕ
  total_requests : ℕ
  error_rate : ℚ
deriving DecidableEq

/-- `problematic_endpoints.sort(key=error_rate, reverse=True)` followed by
taking the head: the first element of maximal error rate (Python's sort is
stable, so ties keep insertion order). -/
def maxRateFirst : List EndpointStat → Option EndpointStat
  | [] => none
  | e :: rest =>
    match maxRateFirst rest with
    | none => some e
    | some b => if b.error_rate > e.error_rate then some b else some e

/-- The `problematic_endpoints` list of `correlate_error_with_endpoint`:
endpoints having at least one error, in order of first error occurrence
(Python dict insertion order), kept when they have at least 5 total
requests and an error rate above 30%. -/
def problematicEndpoints (logs : List Log) : List EndpointStat :=
  let entries := logs.map (fun l => (extractEndpoint l, isErrorLog l))
  let errorKeys := dedupFirst ((entries.filter (·.2)).map (·.1))
  errorKeys.filterMap (fun e =>
    let total := (entries.filter (fun p => p.1 = e)).length
    let errs := (entries.filter (fun p => p.1 = e ∧ p.2)).length
    if total < 5 then none
    else
      let rate : ℚ := (errs : ℚ) / (total : ℚ)
      if 0.3 < rate then some ⟨e, errs, total, rate⟩ else none)

/-- `correlate_error_with_endpoint`: emit one anomaly for the worst
problematic endpoint; critical when its score exceeds 0.8, else high. -/
def correlateErrorWithEndpoint (logs : List Log) : Option Anomaly :=
  match maxRateFirst (problematicEndpoints logs) with
  | none => none
  | some top =>
    let score := min 1 top.error_rate
    let severity := if 0.8 < score then Severity.critical else Severity.high
    some { anomaly_type := "endpoint_error_correlation"
           severity := severity
           score := score
           metrics := [("endpoint", .str top.endpoint),
                       ("error_count", .num top.error_count),
                       ("total_requests", .num top.total_requests),
                       ("error_rate", .num top.error_rate)] }

/-- An entry of `error_events` in `correlate_error_cascade`: parsed
timestamp and the first 100 characters of the message. -/
structure ErrorEvent where
  timestamp : ℚ
  message : String
deriving DecidableEq

/-- The `error_events` extraction of `correlate_error_cascade`: error logs
with a parseable timestamp, message truncated to 100 characters. -/
def cascadeErrorEvents (logs : List Log) : List ErrorEvent :=
  logs.filterMap (fun l =>
    if isErrorLog l then l.timestamp.map (fun ts => ⟨ts, takeStr l.message 100⟩)
    else none)

/-- `error_events.sort(key=timestamp)`: a stable sort by timestamp
(insertion sort is stable, as is Python's sort). -/
def sortedErrorEvents (logs : List Log) : List ErrorEvent :=
  (cascadeErrorEvents logs).insertionSort (fun a b => a.timestamp ≤ b.timestamp)

/-- One entry of `cascade_windows`. -/
structure CascadeWindow where
  start : ℚ
  stop : ℚ
  duration : ℚ
  unique_types : ℕ
deriving DecidableEq

/-- The sliding-window scan of `correlate_error_cascade` over the sorted
error events: each run of 5 consecutive events (`events[i..i+4]` for
`i ∈ range(len - 4)`) forms a cascade window when it spans at most 30
seconds and carries at least 3 distinct (100-character-truncated)
messages. -/
def cascadeWindows : List ErrorEvent → List CascadeWindow
  | e1 :: tail@(e2 :: e3 :: e4 :: e5 :: _) =>
    (if e5.timestamp - e1.timestamp ≤ 30 then
      let uniq := (dedupFirst [e1.message, e2.message, e3.message, e4.message, e5.message]).length
      if 3 ≤ uniq then
        [{ start := e1.timestamp, stop := e5.timestamp
           duration := e5.timestamp - e1.timestamp, unique_types := uniq }]
      else []
    else []) ++ cascadeWindows tail
  | _ => []

/-- The anomaly built from the first cascade window (`cascade_count` is
the total number of windows found). -/
def cascadeAnomaly (w : CascadeWindow) (cascade_count : ℕ) : Anomaly :=
  { anomaly_type := "error_cascade"
    severity := .high
    score := min 1 ((w.unique_types : ℚ) / 5)
    metrics := [("duration_seconds", .num w.duration),
                ("error_count", .num 5),
                ("unique_error_types", .num w.unique_types),
                ("cascade_count", .num cascade_count)] }

/-- `correlate_error_cascade`: guard on batch size 10 and on 5 extracted
error events, then report the first cascade window, if any. -/
def correlateErrorCascade (logs : List Log) : Option Anomaly :=
  if logs.length < 10 then none
  else
    let events := cascadeErrorEvents logs
    if events.length < 5 then none
    else
      let windows := cascadeWindows (sortedErrorEvents logs)
      match windows.head? with
      | none => none
      | some w => some (cascadeAnomaly w windows.length)

/-- Python's `max(anomalies, key=lambda a: severity_order[a.severity])` on
the non-empty list `a0 :: rest`: the first anomaly of maximal severity
rank. -/
def maxBySeverity (a0 : Anomaly) : List Anomaly → Anomaly
  | [] => a0
  | b :: t => maxBySeverity (if a0.severity.rank < b.severity.rank then b else a0) t

/-- The incident record built by `_create_incident`, restricted to the
fields the claims are about.  `id`, `title`, `description`,
`started_at`/`detected_at` (wall clock), `affected_services` (a Python
`set`, whose iteration order is unspecified) and `metrics_snapshot` are
not modelled. -/
structure Incident where
  severity : Severity
  anomalies : List Anomaly
  log_count : ℕ
  error_count : ℕ
  sample_logs : List Log
deriving DecidableEq

/-- `log_monitor._create_incident` on the batch and the (non-empty,
caller-guaranteed) anomaly list `a0 :: rest`: error-log subset, maximal
anomaly severity, first 5 error logs with messages truncated to 200
characters.  The RCA call and the alert fan-out it then performs do not
change these fields. -/
def createIncident (logs : List Log) (a0 : Anomaly) (rest : List Anomaly) : Incident :=
  let error_logs := logs.filter isErrorLog
  { severity := (maxBySeverity a0 rest).severity
    anomalies := a0 :: rest
    log_count := logs.length
    error_count := error_logs.length
    sample_logs := (error_logs.take 5).map
      (fun l => { l with message := takeStr l.message 200 }) }

/-- `models/incident.py` `MonitoringState` (counters; `last_check` and
`status` are not touched by the incident step modelled here). -/
structure MonitoringState where
  logs_processed : ℕ := 0
  anomalies_detected : ℕ := 0
  incidents_created : ℕ := 0
deriving DecidableEq

/-- The monitor's mutable state: its incident list plus the counters. -/
structure LogMonitorState where
  incidents : List Incident := []
  state : MonitoringState := {}
deriving DecidableEq

/-- `a.severity in ["critical", "high"]`, the incident trigger filter of
`_check_logs`. -/
def isHighOrCritical (a : Anomaly) : Bool :=
  a.severity = Severity.critical || a.severity = Severity.high

/-- Steps 10–13 of `_check_logs` (lines 204–235): filter the fused
anomalies to the high/critical ones; when any remain, `_create_incident`
builds the incident, appends it to `self.incidents` and increments
`incidents_created` (lines 374–376), and then `_check_logs` appends the
same incident and increments the counter once more (lines 213–214). -/
def checkLogsIncidentStep (m : LogMonitorState) (logs : List Log)
    (all_anomalies : List Anomaly) : LogMonitorState :=
  match all_anomalies.filter isHighOrCritical with
  | [] => m
  | a0 :: rest =>
    let incident := createIncident logs a0 rest
    let afterCreate : LogMonitorState :=
      { incidents := m.incidents ++ [incident]
        state := { m.state with incidents_created := m.state.incidents_created + 1 } }
    { incidents := afterCreate.incidents ++ [incident]
      state := { afterCreate.state with
        incidents_created := afterCreate.state.incidents_created + 1 } }

/-- A run of monitoring cycles, each reduced to its incident step on the
cycle's batch and fused anomaly list. -/
def runCycles (m : LogMonitorState) (cycles : List (List Log × List Anomaly)) :
    LogMonitorState :=
  cycles.foldl (fun acc c => checkLogsIncidentStep acc c.1 c.2) m

/-- The outcome of the single HTTP exchange an `elasticsearch_client`
operation performs: the request may fail on the network or time out, the
returned payload may fail to parse as JSON, or a response (of any HTTP
status — the source never checks it) arrives with a parsed body of shape
`β`. -/
inductive HttpResult (β : Type) where
  | netError
  | timedOut
  | badPayload
  | ok (status : ℕ) (body : β)

/-- The outcomes whose Python counterpart raises inside the `try` block. -/
def HttpResult.isFailing {β : Type} : HttpResult β → Bool
  | .netError => true
  | .timedOut => true
  | .badPayload => true
  | .ok _ _ => false

/-- `TransportError`, the error the spec's façade contract names.  The
source defines no such type; the embedding gives the operations an
`Except TransportError` codomain so that "surfaced as a TransportError"
is expressible, and the code's behaviour sits entirely in `Except.ok`. -/
inductive TransportError where
  | network
  | timeout
  | badStatus
  | badPayload
deriving DecidableEq

/-- `health_check`: every exception is caught and becomes `False`;
otherwise the body's `status` field is tested against
`["green", "yellow"]` (the HTTP status code is ignored). -/
def health_check (r : HttpResult (Option String)) : Except TransportError Bool :=
  match r with
  | .netError => .ok false
  | .timedOut => .ok false
  | .badPayload => .ok false
  | .ok _ body => .ok (body = some "green" || body = some "yellow")

/-- `count_logs`: every exception is caught and becomes `0`; otherwise
`data.get("count", 0)`. -/
def count_logs (r : HttpResult (Option ℕ)) : Except TransportError ℕ :=
  match r with
  | .netError => .ok 0
  | .timedOut => .ok 0
  | .badPayload => .ok 0
  | .ok _ body => .ok (body.getD 0)

/-- `search_logs`: every exception is caught and becomes `[]`.  The body
is the `hits.hits` list, each entry carrying its `_source` when present; a
missing `_source` raises a `KeyError` mid-extraction, which the blanket
`except` also turns into `[]`. -/
def search_logs (r : HttpResult (List (Option Log))) : Except TransportError (List Log) :=
  match r with
  | .netError => .ok []
  | .timedOut => .ok []
  | .badPayload => .ok []
  | .ok _ hits => if hits.all (·.isSome) then .ok (hits.filterMap id) else .ok []

/-- `aggregate_by_field`: every exception is caught and becomes the empty
mapping; otherwise the parsed buckets. -/
def aggregate_by_field (r : HttpResult (List (String × ℕ))) :
    Except TransportError (List (String × ℕ)) :=
  match r with
  | .netError => .ok []
  | .timedOut => .ok []
  | .badPayload => .ok []
  | .ok _ buckets => .ok buckets

/-- A metric-channel state with no samples yet (a fresh hourly or weekday
bucket). -/
def freshStats : MetricStats := { mean := 0, std_sq := 0, samples := 0 }

/-- Concrete batch material: an `ERROR` request to `/api/x`. -/
def errLog6 : Log := { level := "ERROR", message := "GET /api/x" }

/-- Concrete batch material: a successful request to `/api/x`. -/
def okLog6 : Log := { level := "INFO", message := "GET /api/x" }

/-- Concrete batch material: an unrelated `INFO` record. -/
def infoLog6 : Log := { level := "INFO", message := "healthy heartbeat" }

/-- The endpoint-correlation scenario batch: 10 requests to `GET /api/x`
of which 8 are `ERROR`, plus 10 unrelated `INFO` records. -/
def cBatch6 : List Log :=
  List.replicate 8 errLog6 ++ List.replicate 2 okLog6 ++ List.replicate 10 infoLog6

/-- The anomaly `correlate_error_with_endpoint` produces on `cBatch6`. -/
def endpointAnom6 : Anomaly :=
  { anomaly_type := "endpoint_error_correlation"
    severity := .high
    score := 4/5
    metrics := [("endpoint", .str "/api/x"),
                ("error_count", .num 8),
                ("total_requests", .num 10),
                ("error_rate", .num (4/5))] }

/-- An `ERROR` record with an explicit timestamp, for the cascade
scenarios. -/
def errAt (ts : ℚ) (msg : String) : Log :=
  { timestamp := some ts, level := "ERROR", message := msg }

/-- Five error events within 10 seconds carrying 4 distinct messages —
and nothing else, so the batch stays below the 10-record guard. -/
def smallBatch7 : List Log :=
  [errAt 0 "A", errAt 2 "A", errAt 4 "B", errAt 6 "C", errAt 10 "D"]

/-- The same five error events padded with 5 unrelated `INFO` records to
pass the 10-record guard. -/
def bigBatch7 : List Log := smallBatch7 ++ List.replicate 5 infoLog6

/-- The (single) cascade window of `bigBatch7`. -/
def window7 : CascadeWindow := { start := 0, stop := 10, duration := 10, unique_types := 4 }

/-- A window of six oscillating values with mean 9 and sample standard
deviation exactly 6. -/
def oscValues10 : List ℚ := [0, 6, 9, 9, 12, 18]

/-- The anomaly `detect_oscillation` produces on `oscValues10`. -/
def oscAnom10 : Anomaly :=
  { anomaly_type := "oscillation"
    severity := .medium
    score := 2/3
    metrics := [("coefficient_of_variation", .num (2/3)),
                ("mean", .num 9),
                ("stdev", .num 6)] }

/-- Four previous cycle counts whose sample variance is the perfect
square 16. -/
def spikePrev5 : List ℚ := [0, 0, 0, 8]

/-- The anomaly `detect_error_spike` produces on `spikePrev5` with
current count 20 (threshold `2 + 2·4 = 10`, score `10/11`). -/
def spikeAnom5 : Anomaly :=
  { anomaly_type := "error_spike"
    severity := .critical
    score := 10/11
    metrics := [("current_errors", .num 20),
                ("baseline_avg", .num 2),
                ("threshold", .num 10)] }

/-- A baseline state whose overall bucket has 10 samples, unit error
variance and volume variance 2500 — enough history for `is_anomalous` to
score inputs. -/
def baselineW : AdaptiveBaseline :=
  { hourly_baselines := fun _ => { error_rate := freshStats, log_volume := freshStats }
    daily_baselines := fun _ => { error_rate := freshStats, log_volume := freshStats }
    overall_baseline :=
      { error_rate := { mean := 0, std_sq := 1, samples := 10 }
        log_volume := { mean := 100, std_sq := 2500, samples := 10 } } }

/-- Midnight Monday, the timestamp used by the concrete baseline
checks. -/
def timeW : Time := { hour := 0, weekday := 0 }

/-- An empty monitor state. -/
def monW : LogMonitorState := {}

/-- Feeding one bucket: the per-bucket slice of `AdaptiveBaseline.update`
applied over a sample list. -/
def bucketFeed (b : BaselineStats) (ss : List BaselineSample) : BaselineStats :=
  ss.foldl (fun acc s => updateBaselineStats acc s.error_rate s.log_volume) b

/-- Two concrete samples landing in the midnight-Monday buckets. -/
def samplesW : List BaselineSample :=
  [{ error_rate := 1, log_volume := 100, t := timeW },
   { error_rate := 3, log_volume := 200, t := timeW }]

/-- A high-severity anomaly used to exercise the incident step. -/
def highAnomW : Anomaly :=
  { anomaly_type := "service_degradation", severity := .high, score := 1 }

/-- A low-severity anomaly used to exercise the incident step. -/
def lowAnomW : Anomaly :=
  { anomaly_type := "log_volume_spike", severity := .low, score := 0 }

/-! ## Helper lemmas -/

theorem filter_highCritical_eq_nil_iff (anoms : List Anomaly) :
    anoms.filter isHighOrCritical = [] ↔ ¬ ∃ a ∈ anoms, isHighOrCritical a = true := by
  simp [List.filter_eq_nil_iff]

theorem checkLogs_step_nil (m : LogMonitorState) (logs : List Log) (anoms : List Anomaly)
    (h : anoms.filter isHighOrCritical = []) :
    checkLogsIncidentStep m logs anoms = m := by
  simp [checkLogsIncidentStep, h]

theorem checkLogs_step_cons (m : LogMonitorState) (logs : List Log) (anoms : List Anomaly)
    (a0 : Anomaly) (rest : List Anomaly) (h : anoms.filter isHighOrCritical = a0 :: rest) :
    checkLogsIncidentStep m logs anoms =
      { incidents := m.incidents ++ [createIncident logs a0 rest, createIncident logs a0 rest]
        state := { m.state with incidents_created := m.state.incidents_created + 2 } } := by
  simp [checkLogsIncidentStep, h]

theorem checkLogs_counter_step (m : LogMonitorState) (logs : List Log) (anoms : List Anomaly) :
    (checkLogsIncidentStep m logs anoms).state.incidents_created =
      m.state.incidents_created + (if anoms.any isHighOrCritical then 2 else 0) := by
  cases h : anoms.filter isHighOrCritical with
  | nil =>
    rw [checkLogs_step_nil m logs anoms h]
    have hfalse : anoms.any isHighOrCritical = false :=
      List.any_eq_false.mpr (List.filter_eq_nil_iff.mp h)
    simp [hfalse]
  | cons a0 rest =>
    rw [checkLogs_step_cons m logs anoms a0 rest h]
    have ha0 : a0 ∈ anoms.filter isHighOrCritical := by
      rw [h]; exact List.mem_cons_self _ _
    have htrue : anoms.any isHighOrCritical = true :=
      List.any_eq_true.mpr ⟨a0, List.mem_of_mem_filter ha0, List.of_mem_filter ha0⟩
    simp [htrue]

/-! ## C1 -/

/-- **C1.** Within a monitoring cycle, an incident is created (the
incident list changes) iff the fused anomaly set holds at least one
high/critical anomaly; otherwise both the incident list and the
`incidents_created` counter are unchanged by the cycle. -/
theorem incident_created_iff_high_or_critical (m : LogMonitorState) (logs : List Log)
    (anoms : List Anomaly) :
    ((checkLogsIncidentStep m logs anoms).incidents ≠ m.incidents ↔
      ∃ a ∈ anoms, isHighOrCritical a = true)
  ∧ ((¬ ∃ a ∈ anoms, isHighOrCritical a = true) →
      (checkLogsIncidentStep m logs anoms).incidents = m.incidents ∧
      (checkLogsIncidentStep m logs anoms).state.incidents_created =
        m.state.incidents_created) := by
  constructor
  · constructor
    · intro hne
      by_contra hno
      exact hne (by
        rw [checkLogs_step_nil m logs anoms ((filter_highCritical_eq_nil_iff anoms).mpr hno)])
    · intro hex
      cases h : anoms.filter isHighOrCritical with
      | nil => exact absurd hex ((filter_highCritical_eq_nil_iff anoms).mp h)
      | cons a0 rest =>
        rw [checkLogs_step_cons m logs anoms a0 rest h]
        intro heq
        have hlen := congrArg List.length heq
        simp at hlen
  · intro hno
    rw [checkLogs_step_nil m logs anoms ((filter_highCritical_eq_nil_iff anoms).mpr hno)]
    exact ⟨rfl, rfl⟩

/-- Witness for C1 on a concrete cycle whose only anomaly is low. -/
theorem incident_created_iff_high_or_critical_witness :
    ((checkLogsIncidentStep monW [] [lowAnomW]).incidents ≠ monW.incidents ↔
      ∃ a ∈ [lowAnomW], isHighOrCritical a = true)
  ∧ (checkLogsIncidentStep monW [] [lowAnomW]).incidents = monW.incidents
  ∧ (checkLogsIncidentStep monW [] [lowAnomW]).state.incidents_created =
      monW.state.incidents_created := by
  have h := incident_created_iff_high_or_critical monW [] [lowAnomW]
  have hno : ¬ ∃ a ∈ [lowAnomW], isHighOrCritical a = true := by decide
  exact ⟨h.1, (h.2 hno).1, (h.2 hno).2⟩

/-! ## C9 -/

/-- **C9.** A cycle whose fused anomalies include a high/critical one
appends the same incident twice and advances `incidents_created` by 2, so
over any run the counter grows by exactly twice the number of
incident-creating cycles. -/
theorem incident_double_append_and_count (m : LogMonitorState)
    (cycles : List (List Log × List Anomaly)) :
    ((runCycles m cycles).state.incidents_created =
      m.state.incidents_created + 2 * cycles.countP (fun c => c.2.any isHighOrCritical))
  ∧ ∀ (logs : List Log) (anoms : List Anomaly) (a0 : Anomaly) (rest : List Anomaly),
      anoms.filter isHighOrCritical = a0 :: rest →
      (checkLogsIncidentStep m logs anoms).incidents =
        m.incidents ++ [createIncident logs a0 rest, createIncident logs a0 rest] ∧
      (checkLogsIncidentStep m logs anoms).state.incidents_created =
        m.state.incidents_created + 2 := by
  constructor
  · induction cycles generalizing m with
    | nil => simp [runCycles]
    | cons c cs ih =>
      have hrun : runCycles m (c :: cs) = runCycles (checkLogsIncidentStep m c.1 c.2) cs := by
        simp [runCycles]
      rw [hrun, ih, checkLogs_counter_step, List.countP_cons]
      cases hq : c.2.any isHighOrCritical
      all_goals try simp
      all_goals omega
  · intro logs anoms a0 rest h
    rw [checkLogs_step_cons m logs anoms a0 rest h]
    exact ⟨rfl, rfl⟩

/-- Witness for C9: one incident-creating cycle doubles everything. -/
theorem incident_double_append_and_count_witness :
    (runCycles monW [([], [highAnomW])]).state.incidents_created =
      monW.state.incidents_created + 2 * 1
  ∧ (checkLogsIncidentStep monW [] [highAnomW]).incidents =
      monW.incidents ++ [createIncident [] highAnomW [], createIncident [] highAnomW []]
  ∧ (checkLogsIncidentStep monW [] [highAnomW]).state.incidents_created =
      monW.state.incidents_created + 2 := by
  have h := incident_double_append_and_count monW [([], [highAnomW])]
  have hfil : [highAnomW].filter isHighOrCritical = [highAnomW] := by decide
  have hcount : ([([], [highAnomW])] : List (List Log × List Anomaly)).countP
      (fun c => c.2.any isHighOrCritical) = 1 := by decide
  refine ⟨?_, (h.2 [] [highAnomW] highAnomW [] hfil).1, (h.2 [] [highAnomW] highAnomW [] hfil).2⟩
  rw [h.1, hcount]

/-! ## C10 -/

/-- **C10.** Every anomaly `detect_oscillation` emits has severity
`medium`, and a cycle whose only detected anomaly is such an oscillation
leaves the monitor state unchanged (no incident). -/
theorem oscillation_medium_never_incident :
    ∀ (values : List ℚ) (stdev : ℚ) (a : Anomaly),
      detectOscillation values stdev = some a →
      a.severity = Severity.medium ∧
      ∀ (m : LogMonitorState) (logs : List Log), checkLogsIncidentStep m logs [a] = m := by
  intro values stdev a ha
  have hsev : a.severity = Severity.medium := by
    simp only [detectOscillation] at ha
    split at ha
    · exact absurd ha (by simp)
    split at ha
    · exact absurd ha (by simp)
    split at ha
    · split at ha
      · injection ha with hrec
        rw [← hrec]
      · exact absurd ha (by simp)
    · exact absurd ha (by simp)
  refine ⟨hsev, fun m logs => ?_⟩
  apply checkLogs_step_nil
  simp [List.filter_cons, isHighOrCritical, hsev]

/-- Witness for C10 on a concrete oscillating window. -/
theorem oscillation_medium_never_incident_witness :
    detectOscillation oscValues10 6 = some oscAnom10
  ∧ oscAnom10.severity = Severity.medium
  ∧ checkLogsIncidentStep monW [] [oscAnom10] = monW := by
  have hosc : detectOscillation oscValues10 6 = some oscAnom10 := by
    norm_num [detectOscillation, sampleMean, oscValues10, oscAnom10, min_def]
  have h := oscillation_medium_never_incident oscValues10 6 oscAnom10 hosc
  exact ⟨hosc, h.1, h.2 monW []⟩

/-! ## C2 -/

theorem maxBySeverity_mem (a0 : Anomaly) (rest : List Anomaly) :
    maxBySeverity a0 rest ∈ a0 :: rest := by
  induction rest generalizing a0 with
  | nil => simp [maxBySeverity]
  | cons b t ih =>
    rw [maxBySeverity]
    rcases List.mem_cons.mp (ih (if a0.severity.rank < b.severity.rank then b else a0)) with
      h1 | h2
    · rw [h1]
      by_cases hc : a0.severity.rank < b.severity.rank <;> simp [hc]
    · simp [List.mem_cons.mpr (Or.inr (List.mem_cons.mpr (Or.inr h2)))]

theorem maxBySeverity_ge (a0 : Anomaly) (rest : List Anomaly) :
    ∀ a ∈ a0 :: rest, a.severity.rank ≤ (maxBySeverity a0 rest).severity.rank := by
  induction rest generalizing a0 with
  | nil =>
    intro a ha
    simp at ha
    rw [ha, maxBySeverity]
  | cons b t ih =>
    intro a ha
    rw [maxBySeverity]
    have hbound := ih (if a0.severity.rank < b.severity.rank then b else a0)
    have hhead := hbound _ (List.mem_cons_self _ _)
    rcases List.mem_cons.mp ha with h1 | h2
    · subst h1
      refine le_trans ?_ hhead
      by_cases hc : a.severity.rank < b.severity.rank
      · simp only [if_pos hc]
        exact Nat.le_of_lt hc
      · simp [hc]
    · rcases List.mem_cons.mp h2 with h2a | h2b
      · subst h2a
        refine le_trans ?_ hhead
        by_cases hc : a0.severity.rank < a.severity.rank
        · simp [hc]
        · simp only [if_neg hc]
          exact Nat.le_of_not_lt hc
      · exact hbound a (List.mem_cons_of_mem _ h2b)

/-- **C2.** The severity of an incident built from a non-empty anomaly
list is the maximum severity of its contained anomalies under the rank
order low < medium < high < critical. -/
theorem incident_severity_eq_max_severity (logs : List Log) (a0 : Anomaly)
    (rest : List Anomaly) :
    ((createIncident logs a0 rest).severity ∈
      (createIncident logs a0 rest).anomalies.map (fun a => a.severity))
  ∧ ∀ a ∈ (createIncident logs a0 rest).anomalies,
      a.severity.rank ≤ (createIncident logs a0 rest).severity.rank := by
  constructor
  · have hmem := maxBySeverity_mem a0 rest
    have : (createIncident logs a0 rest).anomalies = a0 :: rest := rfl
    rw [this]
    exact List.mem_map.mpr ⟨maxBySeverity a0 rest, hmem, rfl⟩
  · intro a ha
    have : (createIncident logs a0 rest).anomalies = a0 :: rest := rfl
    rw [this] at ha
    exact maxBySeverity_ge a0 rest a ha

/-- Witness for C2 on a concrete low/high anomaly pair. -/
theorem incident_severity_eq_max_severity_witness :
    ((createIncident [] lowAnomW [highAnomW]).severity ∈
      (createIncident [] lowAnomW [highAnomW]).anomalies.map (fun a => a.severity))
  ∧ lowAnomW.severity.rank ≤ (createIncident [] lowAnomW [highAnomW]).severity.rank
  ∧ (createIncident [] lowAnomW [highAnomW]).severity = Severity.high := by
  have h := incident_severity_eq_max_severity [] lowAnomW [highAnomW]
  refine ⟨h.1, h.2 lowAnomW (by decide), by decide⟩

/-! ## C3 -/

/-- The squared z-score test computes exactly the source's
`abs((x - mean) / std) > sensitivity` with `std = √std_sq` (real division
by zero yields 0, matching the source's `if std > 0 else 0` guard). -/
theorem zExceeds_iff (x mean std_sq s : ℚ) :
    zExceeds x mean std_sq s = true ↔
      (s : ℝ) < |((x : ℝ) - (mean : ℝ))| / Real.sqrt (std_sq : ℝ) := by
  unfold zExceeds
  by_cases hv : 0 < std_sq
  · have hv' : (0 : ℝ) < (std_sq : ℝ) := by exact_mod_cast hv
    have hsq : (0 : ℝ) < Real.sqrt (std_sq : ℝ) := Real.sqrt_pos.mpr hv'
    rw [if_pos hv]
    by_cases hneg : s < 0
    · rw [if_pos hneg]
      have hsR : (s : ℝ) < 0 := by exact_mod_cast hneg
      simp only [true_iff]
      exact lt_of_lt_of_le hsR (div_nonneg (abs_nonneg _) (Real.sqrt_nonneg _))
    · rw [if_neg hneg]
      have hs0 : (0 : ℝ) ≤ (s : ℝ) := by exact_mod_cast not_lt.mp hneg
      rw [decide_eq_true_eq, lt_div_iff₀ hsq]
      constructor
      · intro h
        have hR : (s : ℝ) ^ 2 * (std_sq : ℝ) < ((x : ℝ) - (mean : ℝ)) ^ 2 := by
          exact_mod_cast h
        have h1 : ((s : ℝ) * Real.sqrt (std_sq : ℝ)) ^ 2 < |((x : ℝ) - (mean : ℝ))| ^ 2 := by
          rw [mul_pow, Real.sq_sqrt hv'.le, sq_abs]
          exact hR
        exact lt_of_pow_lt_pow_left₀ 2 (abs_nonneg _) h1
      · intro h
        have h1 : ((s : ℝ) * Real.sqrt (std_sq : ℝ)) ^ 2 < |((x : ℝ) - (mean : ℝ))| ^ 2 :=
          pow_lt_pow_left₀ h (mul_nonneg hs0 (Real.sqrt_nonneg _)) (by norm_num)
        rw [mul_pow, Real.sq_sqrt hv'.le, sq_abs] at h1
        exact_mod_cast h1
  · rw [if_neg hv]
    have hv' : (std_sq : ℝ) ≤ 0 := by exact_mod_cast not_lt.mp hv
    rw [Real.sqrt_eq_zero'.mpr hv', div_zero, decide_eq_true_eq]
    constructor
    · intro h; exact_mod_cast h
    · intro h; exact_mod_cast h

theorem is_anomalous_branches (b : AdaptiveBaseline) (t : Time) (er lv s : ℚ)
    (h5 : ¬ (get_expected_baseline b t).error_rate.samples < 5) :
    ((zExceeds er (get_expected_baseline b t).error_rate.mean
        (get_expected_baseline b t).error_rate.std_sq s
      || zExceeds lv (get_expected_baseline b t).log_volume.mean
        (get_expected_baseline b t).log_volume.std_sq s) = false →
      is_anomalous b er lv t s = (false, none))
  ∧ ((zExceeds er (get_expected_baseline b t).error_rate.mean
        (get_expected_baseline b t).error_rate.std_sq s
      || zExceeds lv (get_expected_baseline b t).log_volume.mean
        (get_expected_baseline b t).log_volume.std_sq s) = true →
      (is_anomalous b er lv t s).1 = true ∧ (is_anomalous b er lv t s).2.isSome = true) := by
  constructor
  · intro hz
    simp [is_anomalous, h5, hz]
  · intro hz
    simp [is_anomalous, h5, hz]

/-- **C3.** `is_anomalous` returns `(false, none)` when the selected
baseline has fewer than 5 error-rate samples; otherwise it returns `true`
with evidence iff one of the two z-scores `(x − μ)/σ` (with `σ` the
square root of the stored squared deviation) exceeds the sensitivity in
absolute value, and `(false, none)` otherwise. -/
theorem is_anomalous_zscore_spec (b : AdaptiveBaseline) (t : Time) (er lv s : ℚ) :
    ((get_expected_baseline b t).error_rate.samples < 5 →
      is_anomalous b er lv t s = (false, none))
  ∧ (5 ≤ (get_expected_baseline b t).error_rate.samples →
      (((is_anomalous b er lv t s).1 = true ∧ (is_anomalous b er lv t s).2.isSome = true) ↔
        ((s : ℝ) < |((er : ℝ) - ((get_expected_baseline b t).error_rate.mean : ℝ))| /
            Real.sqrt ((get_expected_baseline b t).error_rate.std_sq : ℝ) ∨
         (s : ℝ) < |((lv : ℝ) - ((get_expected_baseline b t).log_volume.mean : ℝ))| /
            Real.sqrt ((get_expected_baseline b t).log_volume.std_sq : ℝ)))
      ∧ (¬ ((s : ℝ) < |((er : ℝ) - ((get_expected_baseline b t).error_rate.mean : ℝ))| /
            Real.sqrt ((get_expected_baseline b t).error_rate.std_sq : ℝ) ∨
           (s : ℝ) < |((lv : ℝ) - ((get_expected_baseline b t).log_volume.mean : ℝ))| /
            Real.sqrt ((get_expected_baseline b t).log_volume.std_sq : ℝ)) →
          is_anomalous b er lv t s = (false, none))) := by
  constructor
  · intro h5
    simp [is_anomalous, h5]
  · intro h5
    have hns : ¬ (get_expected_baseline b t).error_rate.samples < 5 := not_lt.mpr h5
    have hbr := is_anomalous_branches b t er lv s hns
    have hiffE := zExceeds_iff er (get_expected_baseline b t).error_rate.mean
      (get_expected_baseline b t).error_rate.std_sq s
    have hiffV := zExceeds_iff lv (get_expected_baseline b t).log_volume.mean
      (get_expected_baseline b t).log_volume.std_sq s
    constructor
    · constructor
      · intro hres
        by_cases hz : (zExceeds er (get_expected_baseline b t).error_rate.mean
            (get_expected_baseline b t).error_rate.std_sq s
          || zExceeds lv (get_expected_baseline b t).log_volume.mean
            (get_expected_baseline b t).log_volume.std_sq s) = true
        · rw [Bool.or_eq_true] at hz
          rcases hz with h | h
          · exact Or.inl (hiffE.mp h)
          · exact Or.inr (hiffV.mp h)
        · rw [hbr.1 (Bool.eq_false_iff.mpr hz)] at hres
          exact absurd hres.1 (by simp)
      · intro hor
        refine (hbr.2 ?_)
        rw [Bool.or_eq_true]
        rcases hor with h | h
        · exact Or.inl (hiffE.mpr h)
        · exact Or.inr (hiffV.mpr h)
    · intro hnor
      have hzE : zExceeds er (get_expected_baseline b t).error_rate.mean
          (get_expected_baseline b t).error_rate.std_sq s = false :=
        Bool.eq_false_iff.mpr (fun h => hnor (Or.inl (hiffE.mp h)))
      have hzV : zExceeds lv (get_expected_baseline b t).log_volume.mean
          (get_expected_baseline b t).log_volume.std_sq s = false :=
        Bool.eq_false_iff.mpr (fun h => hnor (Or.inr (hiffV.mp h)))
      exact hbr.1 (by rw [hzE, hzV]; rfl)

/-- Witness for C3: a baseline with 10 overall samples flags an error
rate 50 standard deviations above its unit-variance mean. -/
theorem is_anomalous_zscore_spec_witness :
    5 ≤ (get_expected_baseline baselineW timeW).error_rate.samples
  ∧ (is_anomalous baselineW 50 100 timeW 2).1 = true
  ∧ (is_anomalous baselineW 50 100 timeW 2).2.isSome = true := by
  have h := (is_anomalous_zscore_spec baselineW timeW 50 100 2).2 (by decide)
  have hmean : ((get_expected_baseline baselineW timeW).error_rate.mean : ℝ) = 0 := by
    norm_num [get_expected_baseline, baselineW, timeW, freshStats]
  have hvar : ((get_expected_baseline baselineW timeW).error_rate.std_sq : ℝ) = 1 := by
    norm_num [get_expected_baseline, baselineW, timeW, freshStats]
  have hz : ((2 : ℚ) : ℝ) <
      |(((50 : ℚ) : ℝ) - ((get_expected_baseline baselineW timeW).error_rate.mean : ℝ))| /
        Real.sqrt ((get_expected_baseline baselineW timeW).error_rate.std_sq : ℝ) := by
    rw [hmean, hvar, Real.sqrt_one]
    norm_num
  exact ⟨by decide, (h.1.mpr (Or.inl hz)).1, (h.1.mpr (Or.inl hz)).2⟩

/-! ## C5 -/

/-- **C5.** `detect_error_spike` fires iff there are at least 4 previous
in-window counts and the current count exceeds both `μ + 2σ` and 10; the
emitted anomaly's score is `clamp((current − (μ+2σ)) / ((μ+2σ)+1), 0, 1)`
and its severity is the score-to-label mapping applied to that score.
`σ` is constrained to be the sample standard deviation of the previous
counts, which the source computes as a float square root. -/
theorem detect_error_spike_spec (prev : List ℚ) (current σ : ℚ)
    (hprev : ∀ x ∈ prev, 0 ≤ x) (hσ0 : 0 ≤ σ) (hσ : σ ^ 2 = sampleVariance prev) :
    ((detectErrorSpike prev current σ).isSome = true ↔
      (4 ≤ prev.length ∧ sampleMean prev + 2 * σ < current ∧ 10 < current))
  ∧ ∀ a, detectErrorSpike prev current σ = some a →
      a.anomaly_type = "error_spike" ∧
      a.score = max 0 (min 1 ((current - (sampleMean prev + 2 * σ)) /
        (sampleMean prev + 2 * σ + 1))) ∧
      a.severity = calculateSeverity a.score := by
  have hmean : 0 ≤ sampleMean prev :=
    div_nonneg (List.sum_nonneg hprev) (Nat.cast_nonneg _)
  have hthr : 0 ≤ sampleMean prev + 2 * σ := by positivity
  constructor
  · by_cases h4 : prev.length + 1 < 5
    · simp only [detectErrorSpike, if_pos h4, Option.isSome_none, Bool.false_eq_true, false_iff]
      intro hcontra
      omega
    · by_cases hcond : sampleMean prev + 2 * σ < current ∧ 10 < current
      · simp only [detectErrorSpike, if_neg h4, if_pos hcond, Option.isSome_some, true_iff]
        exact ⟨by omega, hcond.1, hcond.2⟩
      · simp only [detectErrorSpike, if_neg h4, if_neg hcond, Option.isSome_none,
          Bool.false_eq_true, false_iff]
        intro hcontra
        exact hcond ⟨hcontra.2.1, hcontra.2.2⟩
  · intro a ha
    by_cases h4 : prev.length + 1 < 5
    · rw [detectErrorSpike, if_pos h4] at ha
      exact absurd ha (by simp)
    · by_cases hcond : sampleMean prev + 2 * σ < current ∧ 10 < current
      · rw [detectErrorSpike, if_neg h4] at ha
        rw [if_pos hcond] at ha
        injection ha with hrec
        have hx : 0 ≤ (current - (sampleMean prev + 2 * σ)) /
            (sampleMean prev + 2 * σ + 1) := by
          apply div_nonneg
          · linarith [hcond.1]
          · linarith
        have hclamp : max 0 (min 1 ((current - (sampleMean prev + 2 * σ)) /
            (sampleMean prev + 2 * σ + 1))) =
            min 1 ((current - (sampleMean prev + 2 * σ)) /
            (sampleMean prev + 2 * σ + 1)) :=
          max_eq_right (le_min (by norm_num) hx)
        refine ⟨by rw [← hrec], ?_, by rw [← hrec]⟩
        rw [← hrec, hclamp]
      · rw [detectErrorSpike, if_neg h4] at ha
        rw [if_neg hcond] at ha
        exact absurd ha (by simp)

/-- Witness for C5: previous counts `[0,0,0,8]` have sample standard
deviation exactly 4, and the current count 20 clears the threshold 10. -/
theorem detect_error_spike_spec_witness :
    (∀ x ∈ spikePrev5, (0 : ℚ) ≤ x) ∧ (0 : ℚ) ≤ 4 ∧ (4 : ℚ) ^ 2 = sampleVariance spikePrev5
  ∧ (detectErrorSpike spikePrev5 20 4).isSome = true
  ∧ detectErrorSpike spikePrev5 20 4 = some spikeAnom5
  ∧ spikeAnom5.score = 10 / 11
  ∧ spikeAnom5.severity = Severity.critical := by
  have hnn : ∀ x ∈ spikePrev5, (0 : ℚ) ≤ x := by decide
  have hvar : (4 : ℚ) ^ 2 = sampleVariance spikePrev5 := by
    norm_num [sampleVariance, sampleMean, spikePrev5]
  have h := detect_error_spike_spec spikePrev5 20 4 hnn (by norm_num) hvar
  have hfire : (detectErrorSpike spikePrev5 20 4).isSome = true :=
    h.1.mpr ⟨by decide, by norm_num [sampleMean, spikePrev5], by norm_num⟩
  have hsp : detectErrorSpike spikePrev5 20 4 = some spikeAnom5 := by
    norm_num [detectErrorSpike, sampleMean, spikePrev5, spikeAnom5, calculateSeverity, min_def]
  exact ⟨hnn, by norm_num, hvar, hfire, hsp, by norm_num [spikeAnom5], rfl⟩

/-! ## C4 -/

theorem feedMetricStats_samples_mean (xs : List ℚ) (f : ℚ) :
    ∀ m : MetricStats,
      (feedMetricStats m xs f).samples = m.samples + xs.length ∧
      (feedMetricStats m xs f).mean * ((m.samples : ℚ) + xs.length) =
        m.mean * m.samples + xs.sum := by
  induction xs with
  | nil =>
    intro m
    simp [feedMetricStats]
  | cons x rest ih =>
    intro m
    have hstep : feedMetricStats m (x :: rest) f =
        feedMetricStats (updateMetricStats m x f) rest f := rfl
    obtain ⟨hs, hm⟩ := ih (updateMetricStats m x f)
    have hsamp : (updateMetricStats m x f).samples = m.samples + 1 := rfl
    have hmean : (updateMetricStats m x f).mean =
        m.mean + (x - m.mean) / ((m.samples : ℚ) + 1) := by
      simp [updateMetricStats]
    constructor
    · rw [hstep, hs, hsamp, List.length_cons]
      omega
    · have hne : ((m.samples : ℚ) + 1) ≠ 0 := by positivity
      rw [hstep]
      calc (feedMetricStats (updateMetricStats m x f) rest f).mean *
            ((m.samples : ℚ) + (x :: rest).length)
          = (feedMetricStats (updateMetricStats m x f) rest f).mean *
            (((updateMetricStats m x f).samples : ℚ) + rest.length) := by
            rw [hsamp]
            push_cast [List.length_cons]
            ring
        _ = (updateMetricStats m x f).mean * (updateMetricStats m x f).samples +
            rest.sum := hm
        _ = m.mean * m.samples + (x :: rest).sum := by
            rw [hmean, hsamp, List.sum_cons]
            push_cast
            field_simp
            ring

theorem feedMetricStats_floor (f : ℚ) (xs : List ℚ) :
    ∀ m : MetricStats, xs ≠ [] → f ^ 2 ≤ (feedMetricStats m xs f).std_sq := by
  induction xs with
  | nil =>
    intro m h
    exact absurd rfl h
  | cons x rest ih =>
    intro m _
    cases rest with
    | nil =>
      show f ^ 2 ≤ (updateMetricStats m x f).std_sq
      simp only [updateMetricStats]
      exact le_max_right _ _
    | cons y ys =>
      have hstep : feedMetricStats m (x :: y :: ys) f =
          feedMetricStats (updateMetricStats m x f) (y :: ys) f := rfl
      rw [hstep]
      exact ih (updateMetricStats m x f) (by simp)

theorem feedMetricStats_mean_of_zero (xs : List ℚ) (f : ℚ) (m : MetricStats)
    (hm : m.samples = 0) (hne : xs ≠ []) :
    (feedMetricStats m xs f).mean = sampleMean xs := by
  obtain ⟨_, hmean⟩ := feedMetricStats_samples_mean xs f m
  have hlen : ((xs.length : ℚ)) ≠ 0 := by
    have : xs.length ≠ 0 := fun h => hne (List.length_eq_zero.mp h)
    exact_mod_cast this
  unfold sampleMean
  rw [eq_div_iff hlen]
  rw [hm] at hmean
  simpa using hmean

theorem bucketFeed_channels (ss : List BaselineSample) :
    ∀ b : BaselineStats,
      (bucketFeed b ss).error_rate =
        feedMetricStats b.error_rate (ss.map (fun s => s.error_rate)) 0.1 ∧
      (bucketFeed b ss).log_volume =
        feedMetricStats b.log_volume (ss.map (fun s => s.log_volume)) 1 := by
  induction ss with
  | nil =>
    intro b
    exact ⟨rfl, rfl⟩
  | cons s rest ih =>
    intro b
    have hstep : bucketFeed b (s :: rest) =
        bucketFeed (updateBaselineStats b s.error_rate s.log_volume) rest := rfl
    rw [hstep]
    obtain ⟨he, hv⟩ := ih (updateBaselineStats b s.error_rate s.log_volume)
    exact ⟨he, hv⟩

theorem feedBaseline_hourly (samples : List BaselineSample) :
    ∀ (b : AdaptiveBaseline) (h : Fin 24),
      (feedBaseline b samples).hourly_baselines h =
        bucketFeed (b.hourly_baselines h) (samples.filter (fun s => s.t.hour = h)) := by
  induction samples with
  | nil =>
    intro b h
    rfl
  | cons s rest ih =>
    intro b h
    have hstep : feedBaseline b (s :: rest) =
        feedBaseline (b.update s.error_rate s.log_volume s.t) rest := rfl
    rw [hstep, ih]
    by_cases hh : s.t.hour = h
    · have hfil : (s :: rest).filter (fun s => s.t.hour = h) =
          s :: rest.filter (fun s => s.t.hour = h) := by
        simp [List.filter_cons, hh]
      have hupd : (b.update s.error_rate s.log_volume s.t).hourly_baselines h =
          updateBaselineStats (b.hourly_baselines h) s.error_rate s.log_volume := by
        simp [AdaptiveBaseline.update, hh]
      rw [hfil, hupd]
      rfl
    · have hfil : (s :: rest).filter (fun s => s.t.hour = h) =
          rest.filter (fun s => s.t.hour = h) := by
        simp [List.filter_cons, hh]
      have hupd : (b.update s.error_rate s.log_volume s.t).hourly_baselines h =
          b.hourly_baselines h := by
        have hne : ¬ (h = s.t.hour) := fun hc => hh hc.symm
        simp [AdaptiveBaseline.update, hne]
      rw [hfil, hupd]

theorem feedBaseline_daily (samples : List BaselineSample) :
    ∀ (b : AdaptiveBaseline) (d : Fin 7),
      (feedBaseline b samples).daily_baselines d =
        bucketFeed (b.daily_baselines d) (samples.filter (fun s => s.t.weekday = d)) := by
  induction samples with
  | nil =>
    intro b d
    rfl
  | cons s rest ih =>
    intro b d
    have hstep : feedBaseline b (s :: rest) =
        feedBaseline (b.update s.error_rate s.log_volume s.t) rest := rfl
    rw [hstep, ih]
    by_cases hh : s.t.weekday = d
    · have hfil : (s :: rest).filter (fun s => s.t.weekday = d) =
          s :: rest.filter (fun s => s.t.weekday = d) := by
        simp [List.filter_cons, hh]
      have hupd : (b.update s.error_rate s.log_volume s.t).daily_baselines d =
          updateBaselineStats (b.daily_baselines d) s.error_rate s.log_volume := by
        simp [AdaptiveBaseline.update, hh]
      rw [hfil, hupd]
      rfl
    · have hfil : (s :: rest).filter (fun s => s.t.weekday = d) =
          rest.filter (fun s => s.t.weekday = d) := by
        simp [List.filter_cons, hh]
      have hupd : (b.update s.error_rate s.log_volume s.t).daily_baselines d =
          b.daily_baselines d := by
        have hne : ¬ (d = s.t.weekday) := fun hc => hh hc.symm
        simp [AdaptiveBaseline.update, hne]
      rw [hfil, hupd]

theorem feedBaseline_overall (samples : List BaselineSample) :
    ∀ b : AdaptiveBaseline,
      (feedBaseline b samples).overall_baseline = bucketFeed b.overall_baseline samples := by
  induction samples with
  | nil =>
    intro b
    rfl
  | cons s rest ih =>
    intro b
    exact ih (b.update s.error_rate s.log_volume s.t)

theorem floor_le_sqrt_of_sq_le (f v : ℚ) (hf : 0 ≤ f) (h : f ^ 2 ≤ v) :
    ((f : ℚ) : ℝ) ≤ Real.sqrt ((v : ℚ) : ℝ) := by
  have hv : (0 : ℝ) ≤ (v : ℝ) := by
    have : (0 : ℚ) ≤ v := le_trans (sq_nonneg f) h
    exact_mod_cast this
  have hfR : (0 : ℝ) ≤ (f : ℝ) := by exact_mod_cast hf
  rw [Real.le_sqrt hfR hv]
  exact_mod_cast h

/-- **C4 (counterexample).** Feeding the error-rate channel of a fresh
bucket with `[0, 10]` yields a reported standard deviation of
`√25.005 ≈ 5.0005`, not the floor-clamped population standard deviation 5
 — the difference is far above 1e-9, because the first sample's clamped
`std = 0.1` is fed back into the variance recurrence. -/
theorem welford_stddev_counterexample :
    (1e-9 : ℝ) <
      |Real.sqrt (((feedMetricStats freshStats [0, 10] 0.1).std_sq : ℚ) : ℝ) -
        max (Real.sqrt ((popVariance [0, 10] : ℚ) : ℝ)) 0.1| := by
  have h1 : (feedMetricStats freshStats [0, 10] 0.1).std_sq = 5001 / 200 := by
    norm_num [feedMetricStats, updateMetricStats, freshStats, max_def]
  have h2 : popVariance [0, 10] = 25 := by
    norm_num [popVariance, sampleMean]
  rw [h1, h2]
  have h25 : Real.sqrt (((25 : ℚ) : ℚ) : ℝ) = 5 := by
    rw [show (((25 : ℚ) : ℚ) : ℝ) = (5 : ℝ) ^ 2 by norm_num]
    exact Real.sqrt_sq (by norm_num)
  rw [h25, show max (5 : ℝ) 0.1 = 5 by norm_num]
  have hc : ((((5001 : ℚ) / 200 : ℚ) : ℚ) : ℝ) = 5001 / 200 := by
    push_cast
    ring
  have hlow : (5 : ℝ) + 1e-9 < Real.sqrt ((((5001 : ℚ) / 200 : ℚ) : ℚ) : ℝ) := by
    rw [hc]
    exact (Real.lt_sqrt (by norm_num)).mpr (by norm_num)
  have heps : (0 : ℝ) < 1e-9 := by norm_num
  rw [abs_of_pos (by linarith)]
  linarith

/-- **C4 (amended).** After feeding a fresh baseline any finite sample
sequence: each bucket's reported mean is exactly the arithmetic mean of
the samples routed to it, and each bucket's reported standard deviation
is at least the floor (0.1 for error rate, 1 for log volume) after every
update.  (The reported standard deviation does not in general equal the
floor-clamped population standard deviation, because the clamped value is
fed back into the variance recurrence — see the counterexample.) -/
theorem baseline_mean_exact_std_floor (samples : List BaselineSample) (h : Fin 24)
    (d : Fin 7) :
    ((samples.filter (fun s => s.t.hour = h)) ≠ [] →
      ((feedBaseline initialBaseline samples).hourly_baselines h).error_rate.mean =
        sampleMean ((samples.filter (fun s => s.t.hour = h)).map (fun s => s.error_rate)) ∧
      ((feedBaseline initialBaseline samples).hourly_baselines h).log_volume.mean =
        sampleMean ((samples.filter (fun s => s.t.hour = h)).map (fun s => s.log_volume)) ∧
      (((0.1 : ℚ) : ℝ) ≤ Real.sqrt
        ((((feedBaseline initialBaseline samples).hourly_baselines h).error_rate.std_sq : ℚ) : ℝ)) ∧
      (((1 : ℚ) : ℝ) ≤ Real.sqrt
        ((((feedBaseline initialBaseline samples).hourly_baselines h).log_volume.std_sq : ℚ) : ℝ)))
  ∧ ((samples.filter (fun s => s.t.weekday = d)) ≠ [] →
      ((feedBaseline initialBaseline samples).daily_baselines d).error_rate.mean =
        sampleMean ((samples.filter (fun s => s.t.weekday = d)).map (fun s => s.error_rate)) ∧
      ((feedBaseline initialBaseline samples).daily_baselines d).log_volume.mean =
        sampleMean ((samples.filter (fun s => s.t.weekday = d)).map (fun s => s.log_volume)) ∧
      (((0.1 : ℚ) : ℝ) ≤ Real.sqrt
        ((((feedBaseline initialBaseline samples).daily_baselines d).error_rate.std_sq : ℚ) : ℝ)) ∧
      (((1 : ℚ) : ℝ) ≤ Real.sqrt
        ((((feedBaseline initialBaseline samples).daily_baselines d).log_volume.std_sq : ℚ) : ℝ)))
  ∧ (samples ≠ [] →
      (feedBaseline initialBaseline samples).overall_baseline.error_rate.mean =
        sampleMean (samples.map (fun s => s.error_rate)) ∧
      (feedBaseline initialBaseline samples).overall_baseline.log_volume.mean =
        sampleMean (samples.map (fun s => s.log_volume)) ∧
      (((0.1 : ℚ) : ℝ) ≤ Real.sqrt
        (((feedBaseline initialBaseline samples).overall_baseline.error_rate.std_sq : ℚ) : ℝ)) ∧
      (((1 : ℚ) : ℝ) ≤ Real.sqrt
        (((feedBaseline initialBaseline samples).overall_baseline.log_volume.std_sq : ℚ) : ℝ))) := by
  refine ⟨?_, ?_, ?_⟩
  · intro hne
    rw [feedBaseline_hourly samples initialBaseline h]
    obtain ⟨he, hv⟩ := bucketFeed_channels (samples.filter (fun s => s.t.hour = h))
      (initialBaseline.hourly_baselines h)
    have hmapne : (samples.filter (fun s => s.t.hour = h)).map (fun s => s.error_rate) ≠ [] := by
      simpa using hne
    have hmapne2 : (samples.filter (fun s => s.t.hour = h)).map (fun s => s.log_volume) ≠ [] := by
      simpa using hne
    refine ⟨?_, ?_, ?_, ?_⟩
    · rw [he]
      exact feedMetricStats_mean_of_zero _ _ _ rfl hmapne
    · rw [hv]
      exact feedMetricStats_mean_of_zero _ _ _ rfl hmapne2
    · rw [he]
      exact floor_le_sqrt_of_sq_le _ _ (by norm_num)
        (feedMetricStats_floor _ _ _ hmapne)
    · rw [hv]
      exact floor_le_sqrt_of_sq_le _ _ (by norm_num)
        (feedMetricStats_floor _ _ _ hmapne2)
  · intro hne
    rw [feedBaseline_daily samples initialBaseline d]
    obtain ⟨he, hv⟩ := bucketFeed_channels (samples.filter (fun s => s.t.weekday = d))
      (initialBaseline.daily_baselines d)
    have hmapne : (samples.filter (fun s => s.t.weekday = d)).map (fun s => s.error_rate) ≠ [] := by
      simpa using hne
    have hmapne2 : (samples.filter (fun s => s.t.weekday = d)).map (fun s => s.log_volume) ≠ [] := by
      simpa using hne
    refine ⟨?_, ?_, ?_, ?_⟩
    · rw [he]
      exact feedMetricStats_mean_of_zero _ _ _ rfl hmapne
    · rw [hv]
      exact feedMetricStats_mean_of_zero _ _ _ rfl hmapne2
    · rw [he]
      exact floor_le_sqrt_of_sq_le _ _ (by norm_num)
        (feedMetricStats_floor _ _ _ hmapne)
    · rw [hv]
      exact floor_le_sqrt_of_sq_le _ _ (by norm_num)
        (feedMetricStats_floor _ _ _ hmapne2)
  · intro hne
    rw [feedBaseline_overall samples initialBaseline]
    obtain ⟨he, hv⟩ := bucketFeed_channels samples initialBaseline.overall_baseline
    have hmapne : samples.map (fun s => s.error_rate) ≠ [] := by simpa using hne
    have hmapne2 : samples.map (fun s => s.log_volume) ≠ [] := by simpa using hne
    refine ⟨?_, ?_, ?_, ?_⟩
    · rw [he]
      exact feedMetricStats_mean_of_zero _ _ _ rfl hmapne
    · rw [hv]
      exact feedMetricStats_mean_of_zero _ _ _ rfl hmapne2
    · rw [he]
      exact floor_le_sqrt_of_sq_le _ _ (by norm_num)
        (feedMetricStats_floor _ _ _ hmapne)
    · rw [hv]
      exact floor_le_sqrt_of_sq_le _ _ (by norm_num)
        (feedMetricStats_floor _ _ _ hmapne2)

/-- Witness for C4 (amended) on two concrete midnight-Monday samples. -/
theorem baseline_mean_exact_std_floor_witness :
    samplesW.filter (fun s => s.t.hour = (0 : Fin 24)) ≠ []
  ∧ ((feedBaseline initialBaseline samplesW).hourly_baselines 0).error_rate.mean =
      sampleMean ((samplesW.filter (fun s => s.t.hour = (0 : Fin 24))).map
        (fun s => s.error_rate))
  ∧ (((0.1 : ℚ) : ℝ) ≤ Real.sqrt
      ((((feedBaseline initialBaseline samplesW).hourly_baselines 0).error_rate.std_sq : ℚ) : ℝ)) := by
  have hne : samplesW.filter (fun s => s.t.hour = (0 : Fin 24)) ≠ [] := by decide
  have h := (baseline_mean_exact_std_floor samplesW 0 0).1 hne
  exact ⟨hne, h.1, h.2.2.1⟩

/-! ## C6 -/

theorem correlateEndpoint_cBatch6 :
    correlateErrorWithEndpoint cBatch6 = some endpointAnom6 := by
  have h1 : dedupFirst (((cBatch6.map fun l => (extractEndpoint l, isErrorLog l)).filter
      (·.2)).map (·.1)) = ["/api/x"] := by decide
  have h2 : ((cBatch6.map fun l => (extractEndpoint l, isErrorLog l)).filter
      (fun p => decide (p.1 = "/api/x"))).length = 10 := by decide
  have h3 : ((cBatch6.map fun l => (extractEndpoint l, isErrorLog l)).filter
      (fun p => decide (p.1 = "/api/x") && p.2)).length = 8 := by decide
  simp only [correlateErrorWithEndpoint, problematicEndpoints, h1]
  norm_num [List.filterMap_cons, List.filterMap_nil, maxRateFirst, endpointAnom6, min_def,
    h2, h3]

/-- **C6 (counterexample).** On the claim's own batch (10 requests to
`GET /api/x`, 8 of them `ERROR`, plus 10 unrelated `INFO` records) the
emitted anomaly's severity is `high`, not `critical`: the score is exactly
0.8 and the rule requires score **>** 0.8 for critical. -/
theorem endpoint_correlation_severity_counterexample :
    correlateErrorWithEndpoint cBatch6 = some endpointAnom6
  ∧ endpointAnom6.severity = Severity.high
  ∧ endpointAnom6.severity ≠ Severity.critical :=
  ⟨correlateEndpoint_cBatch6, rfl, by decide⟩

/-- **C6 (amended).** On the batch of 10 `GET /api/x` requests (8 of
them errors) plus 10 unrelated `INFO` records,
`correlate_error_with_endpoint` emits an `endpoint_error_correlation`
anomaly for `/api/x` with error rate 0.8 and severity `high` (0.8 is not
strictly above the 0.8 critical threshold). -/
theorem endpoint_correlation_batch_spec :
    correlateErrorWithEndpoint cBatch6 = some endpointAnom6
  ∧ endpointAnom6.anomaly_type = "endpoint_error_correlation"
  ∧ endpointAnom6.score = 0.8
  ∧ ("endpoint", MetricValue.str "/api/x") ∈ endpointAnom6.metrics
  ∧ ("error_rate", MetricValue.num 0.8) ∈ endpointAnom6.metrics
  ∧ endpointAnom6.severity = Severity.high := by
  refine ⟨correlateEndpoint_cBatch6, rfl, by norm_num [endpointAnom6], ?_, ?_, rfl⟩
  · simp [endpointAnom6]
  · have h : (0.8 : ℚ) = 4 / 5 := by norm_num
    rw [h]
    simp [endpointAnom6]

/-! ## C7 -/

theorem cascadeWindows_four (e1 e2 e3 e4 : ErrorEvent) :
    cascadeWindows [e1, e2, e3, e4] = [] := by
  rw [cascadeWindows.eq_def]

theorem cascadeWindows_ne_nil_length (events : List ErrorEvent)
    (h : cascadeWindows events ≠ []) : 5 ≤ events.length := by
  match events with
  | e1 :: e2 :: e3 :: e4 :: e5 :: rest => simp
  | [] => exact absurd (by rw [cascadeWindows.eq_def]) h
  | [e1] => exact absurd (by rw [cascadeWindows.eq_def]) h
  | [e1, e2] => exact absurd (by rw [cascadeWindows.eq_def]) h
  | [e1, e2, e3] => exact absurd (by rw [cascadeWindows.eq_def]) h
  | [e1, e2, e3, e4] => exact absurd (cascadeWindows_four e1 e2 e3 e4) h

theorem sorted_smallBatch7 :
    sortedErrorEvents smallBatch7 =
      [⟨0, "A"⟩, ⟨2, "A"⟩, ⟨4, "B"⟩, ⟨6, "C"⟩, ⟨10, "D"⟩] := by decide

theorem cascadeWindows_smallBatch7 :
    cascadeWindows (sortedErrorEvents smallBatch7) = [window7] := by
  rw [sorted_smallBatch7]
  norm_num +decide [cascadeWindows, cascadeWindows_four, dedupFirst, dedupFirstAux, window7]

/-- **C7 (counterexample).** A batch of exactly the five error events
(within 10 seconds, four distinct messages) satisfies the claim's
antecedent — its sorted error events contain a 5-event window within 30
seconds with at least 3 distinct messages — yet `correlate_error_cascade`
emits nothing, because the batch has fewer than 10 records. -/
theorem error_cascade_small_batch_counterexample :
    cascadeWindows (sortedErrorEvents smallBatch7) = [window7]
  ∧ window7.duration ≤ 30
  ∧ 3 ≤ window7.unique_types
  ∧ correlateErrorCascade smallBatch7 = none := by
  refine ⟨cascadeWindows_smallBatch7, by norm_num [window7], by norm_num [window7], ?_⟩
  have hlen : smallBatch7.length = 5 := by decide
  simp [correlateErrorCascade, hlen]

/-- **C7 (amended).** For every batch of at least 10 records whose
sorted error events contain a cascade window (5 consecutive errors within
30 seconds with at least 3 distinct 100-character-truncated messages),
`correlate_error_cascade` emits exactly one `error_cascade` anomaly,
built from the first such window. -/
theorem error_cascade_first_window_spec (logs : List Log)
    (h10 : 10 ≤ logs.length) (hw : cascadeWindows (sortedErrorEvents logs) ≠ []) :
    ∃ w, (cascadeWindows (sortedErrorEvents logs)).head? = some w ∧
      correlateErrorCascade logs =
        some (cascadeAnomaly w (cascadeWindows (sortedErrorEvents logs)).length) := by
  obtain ⟨w, ws, hcons⟩ := List.exists_cons_of_ne_nil hw
  refine ⟨w, by rw [hcons]; rfl, ?_⟩
  have hnot10 : ¬ logs.length < 10 := not_lt.mpr h10
  have hlen5 : 5 ≤ (sortedErrorEvents logs).length := cascadeWindows_ne_nil_length _ hw
  have hsortlen : (sortedErrorEvents logs).length = (cascadeErrorEvents logs).length :=
    List.length_insertionSort _ _
  have hev5 : ¬ (cascadeErrorEvents logs).length < 5 := by omega
  simp only [correlateErrorCascade, if_neg hnot10, if_neg hev5, hcons]
  rfl

/-- Witness for C7 (amended): the five cascade events padded with five
`INFO` records produce the anomaly with `unique_types = 4`. -/
theorem error_cascade_first_window_spec_witness :
    10 ≤ bigBatch7.length
  ∧ cascadeWindows (sortedErrorEvents bigBatch7) ≠ []
  ∧ correlateErrorCascade bigBatch7 = some (cascadeAnomaly window7 1)
  ∧ window7.unique_types = 4
  ∧ ("unique_error_types", MetricValue.num 4) ∈ (cascadeAnomaly window7 1).metrics := by
  have hsortbig : sortedErrorEvents bigBatch7 =
      [⟨0, "A"⟩, ⟨2, "A"⟩, ⟨4, "B"⟩, ⟨6, "C"⟩, ⟨10, "D"⟩] := by decide
  have hwin : cascadeWindows (sortedErrorEvents bigBatch7) = [window7] := by
    rw [hsortbig]
    norm_num +decide [cascadeWindows, cascadeWindows_four, dedupFirst, dedupFirstAux, window7]
  have h10 : 10 ≤ bigBatch7.length := by decide
  have hne : cascadeWindows (sortedErrorEvents bigBatch7) ≠ [] := by
    rw [hwin]
    simp
  obtain ⟨w, hhead, heq⟩ := error_cascade_first_window_spec bigBatch7 h10 hne
  rw [hwin] at hhead heq
  simp only [List.head?_cons, Option.some.injEq] at hhead
  rw [← hhead] at heq
  simp only [List.length_singleton] at heq
  refine ⟨h10, hne, heq, rfl, ?_⟩
  have h4 : (MetricValue.num ((window7.unique_types : ℚ))) = MetricValue.num 4 := by
    norm_num [window7]
  simp [cascadeAnomaly, window7]

/-! ## C8 -/

/-- **C8 (counterexample).** A network failure is not surfaced as a
`TransportError`: every façade operation swallows it and returns a plain
neutral value. -/
theorem es_failure_not_surfaced_counterexample :
    health_check HttpResult.netError = Except.ok false
  ∧ (health_check HttpResult.netError).isOk = true
  ∧ count_logs HttpResult.netError = Except.ok 0
  ∧ search_logs HttpResult.netError = Except.ok []
  ∧ aggregate_by_field HttpResult.netError = Except.ok [] :=
  ⟨rfl, rfl, rfl, rfl, rfl⟩

/-- **C8 (amended).** Every failure of a façade operation — network
error, timeout or malformed payload — is swallowed inside the operation
and mapped to a neutral default (`false`, `0`, `[]`, `{}`); non-2xx
responses are not failures at all (the status code is never inspected);
each invocation performs a single request, so nothing is retried. -/
theorem es_failures_swallowed :
    (∀ r : HttpResult (Option String), r.isFailing = true → health_check r = Except.ok false)
  ∧ (∀ r : HttpResult (Option ℕ), r.isFailing = true → count_logs r = Except.ok 0)
  ∧ (∀ r : HttpResult (List (Option Log)), r.isFailing = true → search_logs r = Except.ok [])
  ∧ (∀ r : HttpResult (List (String × ℕ)), r.isFailing = true →
      aggregate_by_field r = Except.ok [])
  ∧ (∀ (s₁ s₂ : ℕ) (body : Option String),
      health_check (HttpResult.ok s₁ body) = health_check (HttpResult.ok s₂ body)) := by
  refine ⟨?_, ?_, ?_, ?_, fun s₁ s₂ body => rfl⟩ <;>
    intro r hr <;>
    cases r <;>
    first
      | rfl
      | exact absurd hr (by simp [HttpResult.isFailing])

/-- Witness for C8 (amended) at concrete failing outcomes. -/
theorem es_failures_swallowed_witness :
    (HttpResult.netError : HttpResult (Option String)).isFailing = true
  ∧ health_check HttpResult.netError = Except.ok false
  ∧ count_logs HttpResult.timedOut = Except.ok 0
  ∧ search_logs HttpResult.badPayload = Except.ok []
  ∧ aggregate_by_field HttpResult.netError = Except.ok [] :=
  ⟨rfl, es_failures_swallowed.1 _ rfl, es_failures_swallowed.2.1 _ rfl,
    es_failures_swallowed.2.2.1 _ rfl, es_failures_swallowed.2.2.2.1 _ rfl⟩

end ObserveAI
